import Mathlib

/-!
Shallow embedding of the rftdi crate (FTDI USB driver): the device property
database (src/prop.rs), the error taxonomy (src/error.rs), the control-transfer
encoder and device handle (src/lib.rs), the mode-typed port (src/port.rs) and
the serial extension (src/serial.rs).  The external USB transport (rusb) is
modelled as an explicit state-passing record of synchronous primitives; machine
integers (u8/u16) are Nat with explicit bounds or reductions where overflow or
casts matter.  Rust panics (assert macros) are modelled as a distinct outcome
constructor, separate from recoverable errors.
-/

namespace Rftdi

/-- Error kinds of src/error.rs (ErrorKind). -/
inductive ErrorKind where
  | Usb
  | MultipleDevicesFound
  | NoDeviceFound
  | UnsupportedDevice
  | Other
deriving DecidableEq, Repr

/-- Result of a library call: a value, a library error carrying its kind, or a
Rust panic (assert macro failure).  The inner message payloads of errors are
not modelled. -/
inductive Outcome (α : Type) where
  | ok : α → Outcome α
  | err : ErrorKind → Outcome α
  | panicked : Outcome α
deriving DecidableEq, Repr

/-- MPSSE capability levels (src/prop.rs MpsseSupport). -/
inductive MpsseSupport where
  | No
  | Basic
  | H
  | FT232H
deriving DecidableEq, Repr

/-- Per-port properties (src/prop.rs PortProps). -/
structure PortProps where
  mpsse : MpsseSupport
deriving DecidableEq, Repr

/-- Device properties (src/prop.rs DeviceProps).  u16 sizes and the u8 width
are Nat; all values in the static table are in range. -/
structure DeviceProps where
  model : String
  tx_buf : Nat
  rx_buf : Nat
  port_width : Nat
  ports : List PortProps
deriving DecidableEq, Repr

/-- src/prop.rs DUMB_PORT: the shared single-port list without MPSSE. -/
def DUMB_PORT : List PortProps := [{ mpsse := MpsseSupport.No }]

/-- Entry 2.00 of the DEVICES table. -/
def ft232am : DeviceProps :=
  { model := "FT232AM", tx_buf := 128, rx_buf := 128, port_width := 0, ports := DUMB_PORT }

/-- Entry 4.00 of the DEVICES table. -/
def ft232bm : DeviceProps :=
  { model := "FT232BM", tx_buf := 128, rx_buf := 384, port_width := 0, ports := DUMB_PORT }

/-- Entry 5.00 of the DEVICES table. -/
def ft2232cd : DeviceProps :=
  { model := "FT2232C/D", tx_buf := 128, rx_buf := 384, port_width := 12,
    ports := [{ mpsse := MpsseSupport.Basic }] }

/-- Entry 6.00 of the DEVICES table. -/
def ft232r : DeviceProps :=
  { model := "FT232R", tx_buf := 256, rx_buf := 128, port_width := 8, ports := DUMB_PORT }

/-- Entry 7.00 of the DEVICES table. -/
def ft2232h : DeviceProps :=
  { model := "FT2232H", tx_buf := 4096, rx_buf := 4096, port_width := 16,
    ports := [{ mpsse := MpsseSupport.H }, { mpsse := MpsseSupport.H }] }

/-- Entry 8.00 of the DEVICES table. -/
def ft4232h : DeviceProps :=
  { model := "FT4232H", tx_buf := 2048, rx_buf := 2048, port_width := 8,
    ports := [{ mpsse := MpsseSupport.H }, { mpsse := MpsseSupport.H },
              { mpsse := MpsseSupport.No }, { mpsse := MpsseSupport.No }] }

/-- Entry 9.00 of the DEVICES table. -/
def ft232h : DeviceProps :=
  { model := "FT232H", tx_buf := 1024, rx_buf := 1024, port_width := 16,
    ports := [{ mpsse := MpsseSupport.FT232H }] }

/-- Entry 10.00 of the DEVICES table. -/
def ftx : DeviceProps :=
  { model := "FT-X", tx_buf := 512, rx_buf := 512, port_width := 8, ports := DUMB_PORT }

/-- src/prop.rs DEVICES: map from bcdDevice major version to device properties
(None when that version does not correspond to a known device). -/
def DEVICES : List (Option DeviceProps) :=
  [none,          -- 0.00
   none,          -- 1.00
   some ft232am,  -- 2.00
   none,          -- 3.00
   some ft232bm,  -- 4.00
   some ft2232cd, -- 5.00
   some ft232r,   -- 6.00
   some ft2232h,  -- 7.00
   some ft4232h,  -- 8.00
   some ft232h,   -- 9.00
   some ftx]      -- 10.00

/-- The property lookup performed by Ftdi::open (src/lib.rs lines 161-164):
DEVICES.get(major) succeeding with a Some entry. -/
def lookupProps (major : Nat) : Option DeviceProps :=
  match DEVICES[major]? with
  | some (some props) => some props
  | _ => none

/-- Modelled from the spec: the property table of section 4.1, row by row, used
only to compare the source database against the rows the spec states. -/
def specRow : Nat → Option DeviceProps
  | 2 => some { model := "FT232AM", tx_buf := 128, rx_buf := 128, port_width := 0,
                ports := [{ mpsse := MpsseSupport.No }] }
  | 4 => some { model := "FT232BM", tx_buf := 128, rx_buf := 384, port_width := 0,
                ports := [{ mpsse := MpsseSupport.No }] }
  | 5 => some { model := "FT2232C/D", tx_buf := 128, rx_buf := 384, port_width := 12,
                ports := [{ mpsse := MpsseSupport.Basic }] }
  | 6 => some { model := "FT232R", tx_buf := 256, rx_buf := 128, port_width := 8,
                ports := [{ mpsse := MpsseSupport.No }] }
  | 7 => some { model := "FT2232H", tx_buf := 4096, rx_buf := 4096, port_width := 16,
                ports := [{ mpsse := MpsseSupport.H }, { mpsse := MpsseSupport.H }] }
  | 8 => some { model := "FT4232H", tx_buf := 2048, rx_buf := 2048, port_width := 8,
                ports := [{ mpsse := MpsseSupport.H }, { mpsse := MpsseSupport.H },
                          { mpsse := MpsseSupport.No }, { mpsse := MpsseSupport.No }] }
  | 9 => some { model := "FT232H", tx_buf := 1024, rx_buf := 1024, port_width := 16,
                ports := [{ mpsse := MpsseSupport.FT232H }] }
  | 10 => some { model := "FT-X", tx_buf := 512, rx_buf := 512, port_width := 8,
                 ports := [{ mpsse := MpsseSupport.No }] }
  | _ => none

/-- Control request opcodes (src/lib.rs ControlReq). -/
inductive ControlReq where
  | Reset
  | SetModemCtrl
  | SetFlowCtrl
  | SetBaudrate
  | SetData
  | PollModemStatus
  | SetEventChar
  | SetErrorChar
  | SetLatencyTimer
  | GetLatencyTimer
  | SetBitmode
  | ReadPins
  | ReadEeprom
  | WriteEeprom
  | EraseEeprom
deriving DecidableEq, Repr

/-- The repr(u8) discriminants of ControlReq (src/lib.rs lines 36-50). -/
def ControlReq.code : ControlReq → Nat
  | .Reset => 0x00
  | .SetModemCtrl => 0x01
  | .SetFlowCtrl => 0x02
  | .SetBaudrate => 0x03
  | .SetData => 0x04
  | .PollModemStatus => 0x05
  | .SetEventChar => 0x06
  | .SetErrorChar => 0x07
  | .SetLatencyTimer => 0x09
  | .GetLatencyTimer => 0x0A
  | .SetBitmode => 0x0B
  | .ReadPins => 0x0C
  | .ReadEeprom => 0x90
  | .WriteEeprom => 0x91
  | .EraseEeprom => 0x92

/-- src/lib.rs line 60: vendor request type bits. -/
def REQ_TYPE_VENDOR : Nat := 0x02 <<< 5

/-- src/lib.rs line 61: device recipient bits. -/
def REQ_RECIPIENT_DEVICE : Nat := 0x00

/-- src/lib.rs line 62: direction OUT bit. -/
def REQ_DIR_OUT : Nat := 0x00

/-- src/lib.rs line 63: direction IN bit. -/
def REQ_DIR_IN : Nat := 0x80

/-- src/lib.rs line 65: request-type byte of every control read. -/
def REQ_READ : Nat := REQ_TYPE_VENDOR ||| REQ_RECIPIENT_DEVICE ||| REQ_DIR_IN

/-- src/lib.rs line 66: request-type byte of every control write. -/
def REQ_WRITE : Nat := REQ_TYPE_VENDOR ||| REQ_RECIPIENT_DEVICE ||| REQ_DIR_OUT

/-- The argument tuple of a rusb read_control call: request-type byte, opcode
byte, 16-bit value, 16-bit index, requested buffer length and timeout (ms). -/
structure ReadReq where
  reqType : Nat
  request : Nat
  value : Nat
  index : Nat
  length : Nat
  timeout : Nat
deriving DecidableEq, Repr

/-- The argument tuple of a rusb write_control call: request-type byte, opcode
byte, 16-bit value, 16-bit index, payload bytes and timeout (ms). -/
structure WriteReq where
  reqType : Nat
  request : Nat
  value : Nat
  index : Nat
  data : List Nat
  timeout : Nat
deriving DecidableEq, Repr

/-- One observable interaction with the external USB layer. -/
inductive UsbAction where
  | claimIntf : Nat → UsbAction
  | releaseIntf : Nat → UsbAction
  | controlRead : ReadReq → UsbAction
  | controlWrite : WriteReq → UsbAction
deriving DecidableEq, Repr

/-- Whether an action claims an interface. -/
def UsbAction.isClaim : UsbAction → Bool
  | .claimIntf _ => true
  | _ => false

/-- Whether an action releases an interface. -/
def UsbAction.isRelease : UsbAction → Bool
  | .releaseIntf _ => true
  | _ => false

/-- The external USB transport (rusb device handle), modelled as synchronous
state-passing primitives over a transport state σ.  A read yields the bytes
actually transferred (their count is the n the source compares against the
buffer length); a write yields the count of bytes the transport reports
written.  An error result models a rusb::Error. -/
structure Transport (σ : Type) where
  readControl : σ → ReadReq → Except Unit (List Nat) × σ
  writeControl : σ → WriteReq → Except Unit Nat × σ
  claimInterface : σ → Nat → Except Unit Unit × σ
  releaseInterface : σ → Nat → Except Unit Unit × σ

/-- src/lib.rs Ftdi: the opened device handle.  The rusb handle itself lives in
the Transport; the handle keeps the timeout (ms) and the matched properties. -/
structure Ftdi where
  timeout : Nat
  properties : DeviceProps
deriving DecidableEq, Repr

/-- Ftdi::DEFAULT_TIMEOUT = 500 ms. -/
def DEFAULT_TIMEOUT : Nat := 500

/-- The fields of a rusb DeviceDescriptor that Ftdi::open reads. -/
structure DeviceDescriptor where
  num_configurations : Nat
  version_major : Nat
  version_minor : Nat
  version_sub_minor : Nat
deriving DecidableEq, Repr

/-- The field of a rusb InterfaceDescriptor that Ftdi::open reads. -/
structure InterfaceDescriptor where
  num_endpoints : Nat
deriving DecidableEq, Repr

/-- A rusb Interface: its descriptor sets. -/
structure UsbInterface where
  descriptors : List InterfaceDescriptor
deriving DecidableEq, Repr

/-- The fields of a rusb ConfigDescriptor that Ftdi::open reads. -/
structure ConfigDescriptor where
  num_interfaces : Nat
  interfaces : List UsbInterface
deriving DecidableEq, Repr

/-- A candidate USB device as seen by the enumerator: its device descriptor
and its active configuration descriptor. -/
structure UsbDevice where
  descr : DeviceDescriptor
  config : ConfigDescriptor
deriving DecidableEq, Repr

/-- The per-interface validation loop body of Ftdi::open (src/lib.rs lines
138-154): a missing first descriptor set or a second descriptor set is
UnsupportedDevice.  The endpoint-count test on the single descriptor set
(line 143) has an empty branch body in the source, so both of its outcomes
fall through to the extra-descriptor check. -/
def checkInterface (descrs : List InterfaceDescriptor) : Except ErrorKind Unit :=
  match descrs with
  | [] => .error ErrorKind.UnsupportedDevice
  | d :: rest =>
    if d.num_endpoints ≠ 2 then
      -- line 143 of src/lib.rs: the branch body is empty
      (if rest.isEmpty then .ok () else .error ErrorKind.UnsupportedDevice)
    else
      (if rest.isEmpty then .ok () else .error ErrorKind.UnsupportedDevice)

/-- The interface loop of Ftdi::open over every interface of the active
configuration. -/
def checkInterfaces : List UsbInterface → Except ErrorKind Unit
  | [] => .ok ()
  | intf :: rest =>
    match checkInterface intf.descriptors with
    | .ok () => checkInterfaces rest
    | .error e => .error e

/-- Ftdi::open (src/lib.rs lines 122-197).  The descriptor data of the device
is pure input; the final rusb open call is modelled by the openOk flag (false
standing for any rusb error, wrapped as Usb). -/
def Ftdi.openDevice (dev : UsbDevice) (openOk : Bool) : Except ErrorKind Ftdi :=
  if dev.descr.num_configurations ≠ 1 then .error ErrorKind.UnsupportedDevice
  else
    match checkInterfaces dev.config.interfaces with
    | .error e => .error e
    | .ok () =>
      if dev.descr.version_minor ≠ 0 ∨ dev.descr.version_sub_minor ≠ 0 then
        .error ErrorKind.UnsupportedDevice
      else
        match lookupProps dev.descr.version_major with
        | none => .error ErrorKind.UnsupportedDevice
        | some props =>
          if dev.config.num_interfaces ≠ props.ports.length then
            .error ErrorKind.UnsupportedDevice
          else if openOk then .ok { timeout := DEFAULT_TIMEOUT, properties := props }
          else .error ErrorKind.Usb

/-- The selection loop of Ftdi::open_filtered (src/lib.rs lines 102-120) over
the device list, with the running Option of the already-selected device.
Returns the loop result together with the number of devices examined: the
loop aborts the moment a second match is seen.  A pure filter models the
predicates of open_unique, open_by_id and open_by_addr. -/
def Ftdi.scanDevices (filter : UsbDevice → Bool) :
    List UsbDevice → Option UsbDevice → Except ErrorKind UsbDevice × Nat
  | [], none => (.error ErrorKind.NoDeviceFound, 0)
  | [], some d => (.ok d, 0)
  | d :: rest, selected =>
    if filter d then
      match selected with
      | some _ => (.error ErrorKind.MultipleDevicesFound, 1)
      | none =>
        let r := Ftdi.scanDevices filter rest (some d)
        (r.1, r.2 + 1)
    else
      let r := Ftdi.scanDevices filter rest selected
      (r.1, r.2 + 1)

/-- Ftdi::open_filtered: run the selection loop, then open the selected
device. -/
def Ftdi.open_filtered (filter : UsbDevice → Bool) (devs : List UsbDevice)
    (openOk : Bool) : Except ErrorKind Ftdi :=
  match (Ftdi.scanDevices filter devs none).1 with
  | .ok d => Ftdi.openDevice d openOk
  | .error e => .error e

/-- u16::from_le_bytes on the 2-byte read buffer. -/
def le16 (bytes : List Nat) : Nat :=
  bytes.getD 0 0 + 256 * bytes.getD 1 0

/-- The control read issued by Ftdi::read_eeprom_word (src/lib.rs lines
283-293): the rusb call site passes value 0 and the word address as the
index field. -/
def Ftdi.read_eeprom_req (f : Ftdi) (word_addr : Nat) : ReadReq :=
  { reqType := REQ_READ, request := ControlReq.ReadEeprom.code, value := 0,
    index := word_addr, length := 2, timeout := f.timeout }

/-- Ftdi::read_eeprom_word (src/lib.rs lines 281-296).  assert_eq of the byte
count against 2 is a panic on mismatch. -/
def Ftdi.read_eeprom_word {σ : Type} (t : Transport σ) (f : Ftdi)
    (word_addr : Nat) (s : σ) : Outcome Nat × σ :=
  match t.readControl s (f.read_eeprom_req word_addr) with
  | (.error _, s1) => (.err ErrorKind.Usb, s1)
  | (.ok bytes, s1) =>
    if bytes.length = 2 then (.ok (le16 bytes), s1) else (.panicked, s1)

/-- The control write issued by Ftdi::write_eeprom_word (src/lib.rs lines
306-315): the word travels in the value field, the address in the index
field, with an empty payload. -/
def Ftdi.write_eeprom_req (f : Ftdi) (word_addr word : Nat) : WriteReq :=
  { reqType := REQ_WRITE, request := ControlReq.WriteEeprom.code, value := word,
    index := word_addr, data := [], timeout := f.timeout }

/-- Ftdi::write_eeprom_word (src/lib.rs lines 305-319).  assert_eq of the
reported count against 0 is a panic on mismatch. -/
def Ftdi.write_eeprom_word {σ : Type} (t : Transport σ) (f : Ftdi)
    (word_addr word : Nat) (s : σ) : Outcome Unit × σ :=
  match t.writeControl s (f.write_eeprom_req word_addr word) with
  | (.error _, s1) => (.err ErrorKind.Usb, s1)
  | (.ok n, s1) =>
    if n = 0 then (.ok (), s1) else (.panicked, s1)

/-- The control write issued by Ftdi::erase_eeprom (src/lib.rs lines 329-338):
value 0, index 0, empty payload, the caller-supplied timeout. -/
def Ftdi.erase_eeprom_req (timeout : Nat) : WriteReq :=
  { reqType := REQ_WRITE, request := ControlReq.EraseEeprom.code, value := 0,
    index := 0, data := [], timeout := timeout }

/-- Ftdi::erase_eeprom (src/lib.rs lines 328-342). -/
def Ftdi.erase_eeprom {σ : Type} (t : Transport σ) (_f : Ftdi)
    (timeout : Nat) (s : σ) : Outcome Unit × σ :=
  match t.writeControl s (Ftdi.erase_eeprom_req timeout) with
  | (.error _, s1) => (.err ErrorKind.Usb, s1)
  | (.ok n, s1) =>
    if n = 0 then (.ok (), s1) else (.panicked, s1)

/-- Ftdi::num_ports (src/lib.rs lines 345-347): the port count of the matched
properties, cast to u8. -/
def Ftdi.num_ports (f : Ftdi) : Nat :=
  f.properties.ports.length % 256

/-- src/bitmode.rs BitMode, with its repr(u8) bit values. -/
inductive BitMode where
  | Serial
  | Bitbang
  | Mpsse
  | Syncbb
  | Mcu
  | Opto
  | Cbus
  | Syncff
deriving DecidableEq, Repr

/-- The repr(u8) discriminants of BitMode (src/bitmode.rs lines 3-13). -/
def BitMode.code : BitMode → Nat
  | .Serial => 0x00
  | .Bitbang => 0x01
  | .Mpsse => 0x02
  | .Syncbb => 0x04
  | .Mcu => 0x08
  | .Opto => 0x10
  | .Cbus => 0x20
  | .Syncff => 0x40

/-- src/port.rs Port<M>: a claimed port.  The index is the 0-based interface
index held by the ReleaseOnDrop wrapper; M is the typestate mode tag. -/
structure Port (M : BitMode) where
  index : Nat
  timeout : Nat
  ep_in : Nat
  ep_out : Nat
  properties : DeviceProps
deriving DecidableEq, Repr

/-- ResetFlags::PURGE_RX (src/port.rs). -/
def PURGE_RX : Nat := 1

/-- ResetFlags::PURGE_TX (src/port.rs). -/
def PURGE_TX : Nat := 2

/-- ResetFlags::PURGE_RX_TX (src/port.rs). -/
def PURGE_RX_TX : Nat := 1 ||| 2

/-- The control read issued by Port::read_control (src/port.rs lines 92-101):
the index field is bInterfaceNumber + 1. -/
def Port.read_control_req {M : BitMode} (p : Port M) (request : ControlReq)
    (value length : Nat) : ReadReq :=
  { reqType := REQ_READ, request := request.code, value := value,
    index := p.index + 1, length := length, timeout := p.timeout }

/-- Port::read_control (src/port.rs lines 86-111): a transport error is Usb; a
byte count different from the buffer length is Other.  Returns the filled
buffer on success, plus the transport interaction performed. -/
def Port.read_control {σ : Type} {M : BitMode} (t : Transport σ) (p : Port M)
    (request : ControlReq) (value length : Nat) (s : σ) :
    Outcome (List Nat) × σ × List UsbAction :=
  match t.readControl s (p.read_control_req request value length) with
  | (.error _, s1) =>
    (.err ErrorKind.Usb, s1, [.controlRead (p.read_control_req request value length)])
  | (.ok bytes, s1) =>
    if bytes.length = length then
      (.ok bytes, s1, [.controlRead (p.read_control_req request value length)])
    else
      (.err ErrorKind.Other, s1, [.controlRead (p.read_control_req request value length)])

/-- The control write issued by Port::write_control (src/port.rs lines
114-123): the index field is bInterfaceNumber + 1. -/
def Port.write_control_req {M : BitMode} (p : Port M) (request : ControlReq)
    (value : Nat) (data : List Nat) : WriteReq :=
  { reqType := REQ_WRITE, request := request.code, value := value,
    index := p.index + 1, data := data, timeout := p.timeout }

/-- Port::write_control (src/port.rs lines 113-134): a transport error is Usb;
a reported count different from the payload length is Other. -/
def Port.write_control {σ : Type} {M : BitMode} (t : Transport σ) (p : Port M)
    (request : ControlReq) (value : Nat) (data : List Nat) (s : σ) :
    Outcome Unit × σ × List UsbAction :=
  match t.writeControl s (p.write_control_req request value data) with
  | (.error _, s1) =>
    (.err ErrorKind.Usb, s1, [.controlWrite (p.write_control_req request value data)])
  | (.ok n, s1) =>
    if n = data.length then
      (.ok (), s1, [.controlWrite (p.write_control_req request value data)])
    else
      (.err ErrorKind.Other, s1, [.controlWrite (p.write_control_req request value data)])

/-- Port::set_bitmode (src/port.rs lines 136-139): SetBitmode with the mode
bits in the high byte of the value. -/
def Port.set_bitmode {σ : Type} {M : BitMode} (t : Transport σ) (p : Port M)
    (mode : BitMode) (s : σ) : Outcome Unit × σ × List UsbAction :=
  p.write_control t ControlReq.SetBitmode ((mode.code <<< 8) ||| 0x00) [] s

/-- Port::into_mode::<T> (src/port.rs lines 144-154): issue SetBitmode(T) and
rebuild the Port value with the same device claim, timeout, endpoints and
properties under the new mode tag. -/
def Port.into_mode (T : BitMode) {σ : Type} {M : BitMode} (t : Transport σ)
    (p : Port M) (s : σ) : Outcome (Port T) × σ × List UsbAction :=
  match p.set_bitmode t T s with
  | (.ok _, s1, tr) =>
    (.ok { index := p.index, timeout := p.timeout, ep_in := p.ep_in,
           ep_out := p.ep_out, properties := p.properties }, s1, tr)
  | (.err e, s1, tr) => (.err e, s1, tr)
  | (.panicked, s1, tr) => (.panicked, s1, tr)

/-- Port::reset (src/port.rs lines 169-171). -/
def Port.reset {σ : Type} {M : BitMode} (t : Transport σ) (p : Port M)
    (flags : Nat) (s : σ) : Outcome Unit × σ × List UsbAction :=
  p.write_control t ControlReq.Reset flags [] s

/-- Port::read_pins (src/port.rs lines 177-182): a 1-byte ReadPins read. -/
def Port.read_pins {σ : Type} {M : BitMode} (t : Transport σ) (p : Port M)
    (s : σ) : Outcome Nat × σ × List UsbAction :=
  match p.read_control t ControlReq.ReadPins 0 1 s with
  | (.ok bytes, s1, tr) => (.ok (bytes.getD 0 0), s1, tr)
  | (.err e, s1, tr) => (.err e, s1, tr)
  | (.panicked, s1, tr) => (.panicked, s1, tr)

/-- Port::open (src/port.rs lines 55-78): claim the interface, build the Port
in Serial mode with the parent timeout and properties, purge both buffers and
force Serial mode.  The endpoint addresses are parameters: the snapshot's
lib.rs and port.rs disagree on the arity of Port::open, and no claim depends
on their values. -/
def Port.openPort {σ : Type} (t : Transport σ) (f : Ftdi)
    (index ep_in ep_out : Nat) (s : σ) :
    Outcome (Port BitMode.Serial) × σ × List UsbAction :=
  match t.claimInterface s index with
  | (.error _, s1) => (.err ErrorKind.Usb, s1, [.claimIntf index])
  | (.ok _, s1) =>
    let p : Port BitMode.Serial :=
      { index := index, timeout := f.timeout, ep_in := ep_in, ep_out := ep_out,
        properties := f.properties }
    match p.reset t PURGE_RX_TX s1 with
    | (.ok _, s2, tr2) =>
      match p.set_bitmode t BitMode.Serial s2 with
      | (.ok _, s3, tr3) => (.ok p, s3, .claimIntf index :: (tr2 ++ tr3))
      | (.err e, s3, tr3) => (.err e, s3, .claimIntf index :: (tr2 ++ tr3))
      | (.panicked, s3, tr3) => (.panicked, s3, .claimIntf index :: (tr2 ++ tr3))
    | (.err e, s2, tr2) => (.err e, s2, .claimIntf index :: tr2)
    | (.panicked, s2, tr2) => (.panicked, s2, .claimIntf index :: tr2)

/-- Ftdi::open_port (src/lib.rs lines 359-368): the assert on the port index
is a panic when the index is out of range; in range, Port::open runs. -/
def Ftdi.open_port {σ : Type} (t : Transport σ) (f : Ftdi)
    (port ep_in ep_out : Nat) (s : σ) :
    Outcome (Port BitMode.Serial) × σ × List UsbAction :=
  if port < f.num_ports then Port.openPort t f port ep_in ep_out s
  else (.panicked, s, [])

/-- src/serial.rs Parity, with its discriminants. -/
inductive Parity where
  | None
  | Odd
  | Even
  | Mark
  | Space
deriving DecidableEq, Repr

/-- The discriminants of Parity (src/serial.rs lines 48-54). -/
def Parity.code : Parity → Nat
  | .None => 0x00
  | .Odd => 0x01
  | .Even => 0x02
  | .Mark => 0x03
  | .Space => 0x04

/-- src/serial.rs StopBits, with its discriminants. -/
inductive StopBits where
  | Stop1
  | Stop15
  | Stop2
deriving DecidableEq, Repr

/-- The discriminants of StopBits (src/serial.rs lines 63-67). -/
def StopBits.code : StopBits → Nat
  | .Stop1 => 0x00
  | .Stop15 => 0x01
  | .Stop2 => 0x02

/-- Port::<Serial>::set_serial_config (src/serial.rs lines 125-139): SetData
with parity in bits 8-10, stop bits in bits 11-13 and break in bit 14. -/
def Port.set_serial_config {σ : Type} (t : Transport σ) (p : Port BitMode.Serial)
    (parity : Parity) (stop : StopBits) (break_condition : Bool) (s : σ) :
    Outcome Unit × σ × List UsbAction :=
  p.write_control t ControlReq.SetData
    ((parity.code <<< 8) ||| (stop.code <<< 11) |||
      ((if break_condition then 1 else 0) <<< 14)) [] s

/-- Port::<Serial>::poll_modem_status (src/serial.rs lines 82-86): a 2-byte
PollModemStatus read, decoded little-endian and truncated to the defined
flag bits 4-15. -/
def Port.poll_modem_status {σ : Type} (t : Transport σ)
    (p : Port BitMode.Serial) (s : σ) : Outcome Nat × σ × List UsbAction :=
  match p.read_control t ControlReq.PollModemStatus 0 2 s with
  | (.ok bytes, s1, tr) => (.ok (le16 bytes &&& 0xFFF0), s1, tr)
  | (.err e, s1, tr) => (.err e, s1, tr)
  | (.panicked, s1, tr) => (.panicked, s1, tr)

/-- Port::<Serial>::read_latency_timer (src/serial.rs lines 159-163): a 1-byte
GetLatencyTimer read. -/
def Port.read_latency_timer {σ : Type} (t : Transport σ)
    (p : Port BitMode.Serial) (s : σ) : Outcome Nat × σ × List UsbAction :=
  match p.read_control t ControlReq.GetLatencyTimer 0 1 s with
  | (.ok bytes, s1, tr) => (.ok (bytes.getD 0 0), s1, tr)
  | (.err e, s1, tr) => (.err e, s1, tr)
  | (.panicked, s1, tr) => (.panicked, s1, tr)

/-- A well-behaved stateless transport: reads return exactly the requested
number of zero bytes, writes report exactly the payload length, claims and
releases succeed. -/
def okTransport : Transport Unit :=
  { readControl := fun s req => (.ok (List.replicate req.length 0), s),
    writeControl := fun s req => (.ok req.data.length, s),
    claimInterface := fun s _ => (.ok (), s),
    releaseInterface := fun s _ => (.ok (), s) }

/-- A faulty transport whose reads always transfer a single zero byte, whatever
length was requested, and whose writes always report zero bytes written. -/
def shortReadTransport : Transport Unit :=
  { readControl := fun s _ => (.ok [0], s),
    writeControl := fun s _ => (.ok 0, s),
    claimInterface := fun s _ => (.ok (), s),
    releaseInterface := fun s _ => (.ok (), s) }

/-- A transport whose reads always transfer the given fixed bytes. -/
def fixedReadTransport (bytes : List Nat) : Transport Unit :=
  { readControl := fun s _ => (.ok bytes, s),
    writeControl := fun s req => (.ok req.data.length, s),
    claimInterface := fun s _ => (.ok (), s),
    releaseInterface := fun s _ => (.ok (), s) }

/-- A fake transport backed by an array of 16-bit words, honouring the EEPROM
wire protocol: a ReadEeprom read of 2 bytes yields the word at the index field
little-endian; a WriteEeprom write with empty payload stores the value field
at the index field and reports 0 bytes written.  Anything else fails. -/
def eepromTransport : Transport (List Nat) :=
  { readControl := fun mem req =>
      if req.reqType = REQ_READ ∧ req.request = ControlReq.ReadEeprom.code ∧
          req.length = 2 then
        (.ok [mem.getD req.index 0 % 256, mem.getD req.index 0 / 256 % 256], mem)
      else (.error (), mem),
    writeControl := fun mem req =>
      if req.reqType = REQ_WRITE ∧ req.request = ControlReq.WriteEeprom.code ∧
          req.data = [] then
        (.ok 0, mem.set req.index req.value)
      else (.error (), mem),
    claimInterface := fun mem _ => (.error (), mem),
    releaseInterface := fun mem _ => (.error (), mem) }

/-- A faulty transport whose reads transfer no bytes and whose writes always
report one byte written. -/
def overReportTransport : Transport Unit :=
  { readControl := fun s _ => (.ok [], s),
    writeControl := fun s _ => (.ok 1, s),
    claimInterface := fun s _ => (.ok (), s),
    releaseInterface := fun s _ => (.ok (), s) }

/-- The Boolean device filter of the C5 examples: hardware revision major 6. -/
def majorSixFilter : UsbDevice → Bool := fun d => d.descr.version_major == 6

/-- A well-formed FT232R device: one configuration, one interface with a single
2-endpoint descriptor set, hardware revision 6.0.0. -/
def goodDevice : UsbDevice :=
  { descr := { num_configurations := 1, version_major := 6, version_minor := 0,
               version_sub_minor := 0 },
    config := { num_interfaces := 1,
                interfaces := [{ descriptors := [{ num_endpoints := 2 }] }] } }

/-- A device identical to goodDevice except that its hardware revision major
is 3, which has no property-database entry. -/
def badMajorDevice : UsbDevice :=
  { descr := { num_configurations := 1, version_major := 3, version_minor := 0,
               version_sub_minor := 0 },
    config := { num_interfaces := 1,
                interfaces := [{ descriptors := [{ num_endpoints := 2 }] }] } }

/-- A device identical to goodDevice except that its single interface
descriptor set reports 3 endpoints instead of 2. -/
def threeEndpointDevice : UsbDevice :=
  { descr := { num_configurations := 1, version_major := 6, version_minor := 0,
               version_sub_minor := 0 },
    config := { num_interfaces := 1,
                interfaces := [{ descriptors := [{ num_endpoints := 3 }] }] } }

/-- The handle that opening goodDevice produces. -/
def someFtdi : Ftdi :=
  { timeout := DEFAULT_TIMEOUT, properties := ft232r }

/-- A concrete claimed port of someFtdi in Serial mode. -/
def somePort : Port BitMode.Serial :=
  { index := 0, timeout := DEFAULT_TIMEOUT, ep_in := 0x81, ep_out := 0x02,
    properties := ft232r }

/-- somePort after a transition into Mpsse mode. -/
def mpssePort : Port BitMode.Mpsse :=
  { index := 0, timeout := DEFAULT_TIMEOUT, ep_in := 0x81, ep_out := 0x02,
    properties := ft232r }

/-- Port::write_control performs exactly one control write. -/
theorem write_control_trace {σ : Type} {M : BitMode} (t : Transport σ) (p : Port M)
    (r : ControlReq) (v : Nat) (d : List Nat) (s : σ) :
    (Port.write_control t p r v d s).2.2 =
      [UsbAction.controlWrite (p.write_control_req r v d)] := by
  unfold Port.write_control
  rcases h : t.writeControl s (p.write_control_req r v d) with ⟨rw, s1⟩
  cases rw with
  | error e => rfl
  | ok n => dsimp only; split <;> rfl

/-- Port::write_control never panics. -/
theorem write_control_fst_ne_panicked {σ : Type} {M : BitMode} (t : Transport σ)
    (p : Port M) (r : ControlReq) (v : Nat) (d : List Nat) (s : σ) :
    (Port.write_control t p r v d s).1 ≠ Outcome.panicked := by
  unfold Port.write_control
  rcases h : t.writeControl s (p.write_control_req r v d) with ⟨rw, s1⟩
  cases rw with
  | error e => simp
  | ok n => dsimp only; split <;> simp

/-- Port::reset never panics. -/
theorem reset_fst_ne_panicked {σ : Type} {M : BitMode} (t : Transport σ) (p : Port M)
    (flags : Nat) (s : σ) : (Port.reset t p flags s).1 ≠ Outcome.panicked :=
  write_control_fst_ne_panicked t p ControlReq.Reset flags [] s

/-- Port::set_bitmode never panics. -/
theorem set_bitmode_fst_ne_panicked {σ : Type} {M : BitMode} (t : Transport σ)
    (p : Port M) (m : BitMode) (s : σ) :
    (Port.set_bitmode t p m s).1 ≠ Outcome.panicked :=
  write_control_fst_ne_panicked t p ControlReq.SetBitmode ((m.code <<< 8) ||| 0x00) [] s

/-- Port::into_mode performs exactly one control write: SetBitmode of the
target mode. -/
theorem into_mode_trace {σ : Type} {M : BitMode} (T : BitMode) (t : Transport σ)
    (p : Port M) (s : σ) :
    (Port.into_mode T t p s).2.2 =
      [UsbAction.controlWrite
        (p.write_control_req ControlReq.SetBitmode ((T.code <<< 8) ||| 0x00) [])] := by
  unfold Port.into_mode
  rcases h : p.set_bitmode t T s with ⟨r, s1, tr⟩
  have htr : tr = [UsbAction.controlWrite
      (p.write_control_req ControlReq.SetBitmode ((T.code <<< 8) ||| 0x00) [])] := by
    have h2 := write_control_trace t p ControlReq.SetBitmode ((T.code <<< 8) ||| 0x00) [] s
    unfold Port.set_bitmode at h
    rw [h] at h2
    exact h2
  cases r <;> simpa using htr

/-- On success, Port::into_mode copies every field of the consumed port. -/
theorem into_mode_fields {σ : Type} {M : BitMode} (T : BitMode) (t : Transport σ)
    (p : Port M) (s : σ) (q : Port T) (h : (Port.into_mode T t p s).1 = .ok q) :
    q.index = p.index ∧ q.timeout = p.timeout ∧ q.properties = p.properties ∧
    q.ep_in = p.ep_in ∧ q.ep_out = p.ep_out := by
  unfold Port.into_mode at h
  rcases hs : p.set_bitmode t T s with ⟨r, s1, tr⟩
  rw [hs] at h
  cases r with
  | ok a =>
    simp only at h
    injection h with h2
    subst h2
    exact ⟨rfl, rfl, rfl, rfl, rfl⟩
  | err e => exact absurd h (by simp)
  | panicked => exact absurd h (by simp)

/-- The selection loop over a list without matches keeps its selection and
examines every device. -/
theorem scan_all_unmatched (f : UsbDevice → Bool) :
    ∀ (l : List UsbDevice) (sel : Option UsbDevice), (∀ a ∈ l, f a = false) →
      Ftdi.scanDevices f l sel =
        ((match sel with
          | none => .error ErrorKind.NoDeviceFound
          | some d => .ok d), l.length) := by
  intro l
  induction l with
  | nil => intro sel _; cases sel <;> rfl
  | cons d rest ih =>
    intro sel h
    have hd : f d = false := h d (List.mem_cons_self d rest)
    have hrest : ∀ a ∈ rest, f a = false := fun a ha => h a (List.mem_cons_of_mem d ha)
    simp only [Ftdi.scanDevices, hd, Bool.false_eq_true, if_false, List.append_eq]
    rw [ih sel hrest]
    simp

/-- Once a device is selected, the selection loop aborts at the next match,
without examining anything beyond it. -/
theorem scan_second_match (f : UsbDevice → Bool) :
    ∀ (cs : List UsbDevice) (d : UsbDevice), (∀ a ∈ cs, f a = false) →
      ∀ (y : UsbDevice) (zs : List UsbDevice), f y = true →
      Ftdi.scanDevices f (cs ++ y :: zs) (some d) =
        (.error ErrorKind.MultipleDevicesFound, cs.length + 1) := by
  intro cs
  induction cs with
  | nil =>
    intro d _ y zs hy
    simp only [List.nil_append, Ftdi.scanDevices, hy, if_true]
    simp
  | cons c cs ih =>
    intro d h y zs hy
    have hc : f c = false := h c (List.mem_cons_self c cs)
    simp only [List.cons_append, Ftdi.scanDevices, hc, Bool.false_eq_true, if_false,
      List.append_eq]
    rw [ih d (fun a ha => h a (List.mem_cons_of_mem c ha)) y zs hy]
    simp

/-- With exactly one match in the list, the selection loop returns it. -/
theorem scan_one_match (f : UsbDevice → Bool) :
    ∀ (as : List UsbDevice) (d : UsbDevice) (bs : List UsbDevice),
      (∀ a ∈ as, f a = false) → f d = true → (∀ a ∈ bs, f a = false) →
      Ftdi.scanDevices f (as ++ d :: bs) none = (.ok d, (as ++ d :: bs).length) := by
  intro as
  induction as with
  | nil =>
    intro d bs _ hd hbs
    simp only [List.nil_append, Ftdi.scanDevices, hd, if_true]
    rw [scan_all_unmatched f bs (some d) hbs]
    simp
  | cons a as ih =>
    intro d bs h hd hbs
    have ha : f a = false := h a (List.mem_cons_self a as)
    simp only [List.cons_append, Ftdi.scanDevices, ha, Bool.false_eq_true, if_false,
      List.append_eq]
    rw [ih d bs (fun x hx => h x (List.mem_cons_of_mem a hx)) hd hbs]
    simp

/-- With two matches in the list, the selection loop fails at the second match
and devices after it are never examined. -/
theorem scan_two_matches (f : UsbDevice → Bool) :
    ∀ (as : List UsbDevice) (d1 : UsbDevice) (cs : List UsbDevice) (d2 : UsbDevice)
      (zs : List UsbDevice),
      (∀ a ∈ as, f a = false) → f d1 = true → (∀ a ∈ cs, f a = false) → f d2 = true →
      Ftdi.scanDevices f (as ++ d1 :: (cs ++ d2 :: zs)) none =
        (.error ErrorKind.MultipleDevicesFound, as.length + cs.length + 2) := by
  intro as
  induction as with
  | nil =>
    intro d1 cs d2 zs _ h1 hcs h2
    simp only [List.nil_append, Ftdi.scanDevices, h1, if_true]
    rw [scan_second_match f cs d1 hcs d2 zs h2]
    simp
  | cons a as ih =>
    intro d1 cs d2 zs h h1 hcs h2
    have ha : f a = false := h a (List.mem_cons_self a as)
    simp only [List.cons_append, Ftdi.scanDevices, ha, Bool.false_eq_true, if_false,
      List.append_eq]
    rw [ih d1 cs d2 zs (fun x hx => h x (List.mem_cons_of_mem a hx)) h1 hcs h2]
    simp
    omega

/-- The only error the per-interface check produces is UnsupportedDevice. -/
theorem checkInterface_error (descrs : List InterfaceDescriptor) (e : ErrorKind)
    (h : checkInterface descrs = .error e) : e = ErrorKind.UnsupportedDevice := by
  rcases descrs with _ | ⟨d, rest⟩
  · simp only [checkInterface] at h
    injection h with h2
    exact h2.symm
  · simp only [checkInterface] at h
    split at h <;> split at h <;> simp_all

/-- The only error the interface loop produces is UnsupportedDevice. -/
theorem checkInterfaces_error :
    ∀ (l : List UsbInterface) (e : ErrorKind), checkInterfaces l = .error e →
      e = ErrorKind.UnsupportedDevice := by
  intro l
  induction l with
  | nil => intro e h; exact absurd h (by simp [checkInterfaces])
  | cons intf rest ih =>
    intro e h
    unfold checkInterfaces at h
    rcases hc : checkInterface intf.descriptors with eh | u
    · rw [hc] at h
      injection h with h2
      subst h2
      exact checkInterface_error intf.descriptors eh hc
    · cases u
      rw [hc] at h
      exact ih e h

/-- When the property lookup fails, Ftdi::open returns UnsupportedDevice no
matter what else the device looks like. -/
theorem openDevice_unsupported_of_lookup_none (dev : UsbDevice) (b : Bool)
    (h : lookupProps dev.descr.version_major = none) :
    Ftdi.openDevice dev b = .error ErrorKind.UnsupportedDevice := by
  unfold Ftdi.openDevice
  by_cases h1 : dev.descr.num_configurations ≠ 1
  · rw [if_pos h1]
  · rw [if_neg h1]
    rcases hc : checkInterfaces dev.config.interfaces with eh | u
    · have he := checkInterfaces_error dev.config.interfaces eh hc
      subst he
      rfl
    · cases u
      dsimp only
      by_cases h2 : dev.descr.version_minor ≠ 0 ∨ dev.descr.version_sub_minor ≠ 0
      · rw [if_pos h2]
      · rw [if_neg h2, h]

/-- A successful Ftdi::open returns the looked-up properties and the default
timeout. -/
theorem openDevice_ok (dev : UsbDevice) (b : Bool) (f : Ftdi)
    (h : Ftdi.openDevice dev b = .ok f) :
    lookupProps dev.descr.version_major = some f.properties ∧
    f.timeout = DEFAULT_TIMEOUT := by
  unfold Ftdi.openDevice at h
  by_cases h1 : dev.descr.num_configurations ≠ 1
  · rw [if_pos h1] at h; exact absurd h (by simp)
  · rw [if_neg h1] at h
    rcases hc : checkInterfaces dev.config.interfaces with eh | u
    · rw [hc] at h; exact absurd h (by simp)
    · cases u
      rw [hc] at h
      dsimp only at h
      by_cases h2 : dev.descr.version_minor ≠ 0 ∨ dev.descr.version_sub_minor ≠ 0
      · rw [if_pos h2] at h; exact absurd h (by simp)
      · rw [if_neg h2] at h
        rcases hl : lookupProps dev.descr.version_major with _ | props
        · rw [hl] at h; exact absurd h (by simp)
        · rw [hl] at h
          dsimp only at h
          by_cases h3 : dev.config.num_interfaces ≠ props.ports.length
          · rw [if_pos h3] at h; exact absurd h (by simp)
          · rw [if_neg h3] at h
            by_cases h4 : b = true
            · rw [if_pos h4] at h
              injection h with h5
              subst h5
              exact ⟨rfl, rfl⟩
            · rw [if_neg h4] at h; exact absurd h (by simp)

/-- A successful property lookup returns an entry of the DEVICES table. -/
theorem lookupProps_mem (m : Nat) (p : DeviceProps) (h : lookupProps m = some p) :
    some p ∈ DEVICES := by
  unfold lookupProps at h
  split at h
  · rename_i props heq
    injection h with h2
    subst h2
    exact List.getElem?_mem heq
  · exact absurd h (by simp)

/-- The property lookup fails beyond index 10, the last table entry. -/
theorem lookupProps_large (m : Nat) (hm : 10 < m) : lookupProps m = none := by
  obtain ⟨k, rfl⟩ : ∃ k, m = k + 11 := ⟨m - 11, by omega⟩
  rfl

/-- Every entry the property lookup can return has 1 to 4 ports. -/
theorem lookupProps_ports_bound (m : Nat) (p : DeviceProps)
    (h : lookupProps m = some p) : 1 ≤ p.ports.length ∧ p.ports.length ≤ 4 := by
  by_cases hm : m ≤ 10
  · interval_cases m <;> simp [lookupProps, DEVICES] at h <;> subst h <;> decide
  · rw [lookupProps_large m (by omega)] at h
    exact absurd h (by simp)

/-- Every Some entry of the DEVICES table has 1 to 4 ports. -/
theorem DEVICES_ports_bound :
    ∀ o ∈ DEVICES, ∀ p : DeviceProps, o = some p →
      1 ≤ p.ports.length ∧ p.ports.length ≤ 4 := by
  intro o ho p hp
  subst hp
  obtain ⟨i, hlt, hget⟩ := List.mem_iff_getElem.mp ho
  have hi : i < 11 := by simpa [DEVICES] using hlt
  interval_cases i <;> simp [DEVICES] at hget <;> subst hget <;> decide

/-- For every handle a successful open produces, the u8 cast in num_ports is
lossless. -/
theorem numPorts_of_open (dev : UsbDevice) (b : Bool) (f : Ftdi)
    (h : Ftdi.openDevice dev b = .ok f) :
    f.num_ports = f.properties.ports.length := by
  have hl := (openDevice_ok dev b f h).1
  have hb := lookupProps_ports_bound dev.descr.version_major f.properties hl
  unfold Ftdi.num_ports
  omega

/-- A port-scope control read whose transport transfers the wrong number of
bytes yields an Other error. -/
theorem read_control_short {σ : Type} {M : BitMode} (t : Transport σ) (p : Port M)
    (r : ControlReq) (v len : Nat) (s : σ) (bytes : List Nat) (s1 : σ)
    (h : t.readControl s (p.read_control_req r v len) = (.ok bytes, s1))
    (hn : bytes.length ≠ len) :
    Port.read_control t p r v len s =
      (.err ErrorKind.Other, s1, [.controlRead (p.read_control_req r v len)]) := by
  unfold Port.read_control
  rw [h]
  dsimp only
  rw [if_neg hn]

/-- A port-scope control write whose transport reports the wrong byte count
yields an Other error. -/
theorem write_control_short {σ : Type} {M : BitMode} (t : Transport σ) (p : Port M)
    (r : ControlReq) (v : Nat) (d : List Nat) (s : σ) (n : Nat) (s1 : σ)
    (h : t.writeControl s (p.write_control_req r v d) = (.ok n, s1))
    (hn : n ≠ d.length) :
    Port.write_control t p r v d s =
      (.err ErrorKind.Other, s1, [.controlWrite (p.write_control_req r v d)]) := by
  unfold Port.write_control
  rw [h]
  dsimp only
  rw [if_neg hn]

/-- Port::read_pins on a short transfer yields an Other error. -/
theorem read_pins_short {σ : Type} {M : BitMode} (t : Transport σ) (p : Port M)
    (s : σ) (bytes : List Nat) (s1 : σ)
    (h : t.readControl s (p.read_control_req ControlReq.ReadPins 0 1) = (.ok bytes, s1))
    (hn : bytes.length ≠ 1) :
    (Port.read_pins t p s).1 = .err ErrorKind.Other := by
  unfold Port.read_pins
  rw [read_control_short t p ControlReq.ReadPins 0 1 s bytes s1 h hn]

/-- Port::poll_modem_status on a short transfer yields an Other error. -/
theorem poll_modem_status_short {σ : Type} (t : Transport σ) (p : Port BitMode.Serial)
    (s : σ) (bytes : List Nat) (s1 : σ)
    (h : t.readControl s (p.read_control_req ControlReq.PollModemStatus 0 2) = (.ok bytes, s1))
    (hn : bytes.length ≠ 2) :
    (Port.poll_modem_status t p s).1 = .err ErrorKind.Other := by
  unfold Port.poll_modem_status
  rw [read_control_short t p ControlReq.PollModemStatus 0 2 s bytes s1 h hn]

/-- Port::read_latency_timer on a short transfer yields an Other error. -/
theorem read_latency_timer_short {σ : Type} (t : Transport σ) (p : Port BitMode.Serial)
    (s : σ) (bytes : List Nat) (s1 : σ)
    (h : t.readControl s (p.read_control_req ControlReq.GetLatencyTimer 0 1) = (.ok bytes, s1))
    (hn : bytes.length ≠ 1) :
    (Port.read_latency_timer t p s).1 = .err ErrorKind.Other := by
  unfold Port.read_latency_timer
  rw [read_control_short t p ControlReq.GetLatencyTimer 0 1 s bytes s1 h hn]

/-- Ftdi::read_eeprom_word on a short transfer panics (assert_eq). -/
theorem read_eeprom_short {σ : Type} (t : Transport σ) (f : Ftdi) (word_addr : Nat)
    (s : σ) (bytes : List Nat) (s1 : σ)
    (h : t.readControl s (f.read_eeprom_req word_addr) = (.ok bytes, s1))
    (hn : bytes.length ≠ 2) :
    (Ftdi.read_eeprom_word t f word_addr s).1 = Outcome.panicked := by
  unfold Ftdi.read_eeprom_word
  rw [h]
  dsimp only
  rw [if_neg hn]

/-- Ftdi::write_eeprom_word on a mis-reported write count panics (assert_eq). -/
theorem write_eeprom_short {σ : Type} (t : Transport σ) (f : Ftdi) (word_addr word : Nat)
    (s : σ) (n : Nat) (s1 : σ)
    (h : t.writeControl s (f.write_eeprom_req word_addr word) = (.ok n, s1))
    (hn : n ≠ 0) :
    (Ftdi.write_eeprom_word t f word_addr word s).1 = Outcome.panicked := by
  unfold Ftdi.write_eeprom_word
  rw [h]
  dsimp only
  rw [if_neg hn]

/-- Ftdi::erase_eeprom on a mis-reported write count panics (assert_eq). -/
theorem erase_eeprom_short {σ : Type} (t : Transport σ) (f : Ftdi) (timeout : Nat)
    (s : σ) (n : Nat) (s1 : σ)
    (h : t.writeControl s (Ftdi.erase_eeprom_req timeout) = (.ok n, s1))
    (hn : n ≠ 0) :
    (Ftdi.erase_eeprom t f timeout s).1 = Outcome.panicked := by
  unfold Ftdi.erase_eeprom
  rw [h]
  dsimp only
  rw [if_neg hn]

/-- Port::open never panics: all its failures are error values. -/
theorem openPort_ne_panicked {σ : Type} (t : Transport σ) (f : Ftdi)
    (i ei eo : Nat) (s : σ) :
    (Port.openPort t f i ei eo s).1 ≠ Outcome.panicked := by
  unfold Port.openPort
  rcases hc : t.claimInterface s i with ⟨rc, s1⟩
  cases rc with
  | error e => simp
  | ok u =>
    dsimp only
    rcases hr : Port.reset t
        ({ index := i, timeout := f.timeout, ep_in := ei, ep_out := eo,
           properties := f.properties } : Port BitMode.Serial) PURGE_RX_TX s1 with ⟨r2, s2, tr2⟩
    cases r2 with
    | ok a =>
      rcases hb : Port.set_bitmode t
          ({ index := i, timeout := f.timeout, ep_in := ei, ep_out := eo,
             properties := f.properties } : Port BitMode.Serial) BitMode.Serial s2
        with ⟨r3, s3, tr3⟩
      cases r3 with
      | ok c => simp [hr, hb]
      | err e => simp [hr, hb]
      | panicked =>
        have hne := set_bitmode_fst_ne_panicked t
          ({ index := i, timeout := f.timeout, ep_in := ei, ep_out := eo,
             properties := f.properties } : Port BitMode.Serial) BitMode.Serial s2
        rw [hb] at hne
        exact absurd rfl hne
    | err e => simp [hr]
    | panicked =>
      have hne := reset_fst_ne_panicked t
        ({ index := i, timeout := f.timeout, ep_in := ei, ep_out := eo,
           properties := f.properties } : Port BitMode.Serial) PURGE_RX_TX s1
      rw [hr] at hne
      exact absurd rfl hne

/-- Ftdi::open_port panics when the index is out of range. -/
theorem open_port_guard_panicked {σ : Type} (t : Transport σ) (f : Ftdi)
    (port ei eo : Nat) (s : σ) (h : f.num_ports ≤ port) :
    (Ftdi.open_port t f port ei eo s).1 = Outcome.panicked := by
  unfold Ftdi.open_port
  rw [if_neg (by omega)]

/-- Ftdi::open_port never panics when the index is in range. -/
theorem open_port_in_range_ne_panicked {σ : Type} (t : Transport σ) (f : Ftdi)
    (port ei eo : Nat) (s : σ) (h : port < f.num_ports) :
    (Ftdi.open_port t f port ei eo s).1 ≠ Outcome.panicked := by
  unfold Ftdi.open_port
  rw [if_pos h]
  exact openPort_ne_panicked t f port ei eo s

/-- The source property table and the table of the section 4.1 rows agree at
every index. -/
theorem lookup_eq_specRow : ∀ m : Nat, lookupProps m = specRow m := by
  intro m
  by_cases hm : m ≤ 10
  · interval_cases m <;> rfl
  · obtain ⟨k, rfl⟩ : ∃ k, m = k + 11 := ⟨m - 11, by omega⟩
    rfl

/-- The property lookup succeeds exactly at the eight known major versions. -/
theorem lookup_isSome_iff (m : Nat) :
    (lookupProps m).isSome = true ↔
      m = 2 ∨ m = 4 ∨ m = 5 ∨ m = 6 ∨ m = 7 ∨ m = 8 ∨ m = 9 ∨ m = 10 := by
  by_cases hm : m ≤ 10
  · interval_cases m <;> simp [lookupProps, DEVICES]
  · rw [lookupProps_large m (by omega)]
    simp only [Option.isSome_none, Bool.false_eq_true, false_iff]
    omega

/-- On the word-array fake transport, a write stores the word at the given
word address. -/
theorem write_eeprom_step (mem : List Nat) (A W : Nat) (f : Ftdi) :
    Ftdi.write_eeprom_word eepromTransport f A W mem = (Outcome.ok (), mem.set A W) := by
  unfold Ftdi.write_eeprom_word
  simp [eepromTransport, Ftdi.write_eeprom_req]

/-- On the word-array fake transport, a read decodes the stored word. -/
theorem read_eeprom_step (mem : List Nat) (A : Nat) (f : Ftdi) :
    Ftdi.read_eeprom_word eepromTransport f A mem =
      (Outcome.ok (mem.getD A 0 % 256 + 256 * (mem.getD A 0 / 256 % 256)), mem) := by
  unfold Ftdi.read_eeprom_word
  simp [eepromTransport, Ftdi.read_eeprom_req, le16]

/-- The EEPROM word round trip on the fake transport. -/
theorem eeprom_roundtrip (mem : List Nat) (A W : Nat) (f : Ftdi)
    (hA : A < mem.length) (hW : W < 65536) :
    (Ftdi.write_eeprom_word eepromTransport f A W mem).1 = Outcome.ok () ∧
    (Ftdi.read_eeprom_word eepromTransport f A
      (Ftdi.write_eeprom_word eepromTransport f A W mem).2).1 = Outcome.ok W := by
  rw [write_eeprom_step]
  refine ⟨rfl, ?_⟩
  rw [read_eeprom_step]
  have hget : (mem.set A W).getD A 0 = W := by
    simp [List.getD, List.getElem?_set_eq_of_lt W hA]
  rw [hget]
  have hsplit : W % 256 + 256 * (W / 256 % 256) = W := by omega
  rw [hsplit]

/-- read_eeprom_word decodes its 2-byte payload little-endian. -/
theorem le16_decode (b0 b1 : Nat) (f : Ftdi) (addr : Nat) :
    (Ftdi.read_eeprom_word (fixedReadTransport [b0, b1]) f addr ()).1 =
      Outcome.ok (b0 + 256 * b1) := by
  unfold Ftdi.read_eeprom_word
  simp [fixedReadTransport, le16]

/-- Claim C1 (code bug witness): a device whose single interface descriptor set
reports 3 endpoints is accepted by Ftdi::open, which returns a handle instead
of UnsupportedDevice: the endpoint-count test at src/lib.rs line 143 has an
empty branch body. -/
theorem C1_endpoint_check_ineffective :
    Ftdi.openDevice threeEndpointDevice true =
      .ok { timeout := DEFAULT_TIMEOUT, properties := ft232r } := rfl

/-- Claim C2 (counterexample): the device-scope EEPROM read at word address 1
puts 1, not 0, in the index field of its control request. -/
theorem C2_counterexample : (Ftdi.read_eeprom_req someFtdi 1).index ≠ 0 := by
  decide

/-- Claim C2 (amended): every port-scope operation puts interface_number + 1 in
the index field, and erase_eeprom puts 0 there; but the EEPROM word operations
of the device handle put the word address in the index field. -/
theorem C2_index_field :
    (∀ (M : BitMode) (p : Port M) (r : ControlReq) (v len : Nat),
      (p.read_control_req r v len).index = p.index + 1) ∧
    (∀ (M : BitMode) (p : Port M) (r : ControlReq) (v : Nat) (d : List Nat),
      (p.write_control_req r v d).index = p.index + 1) ∧
    (∀ timeout : Nat, (Ftdi.erase_eeprom_req timeout).index = 0) ∧
    (∀ (f : Ftdi) (addr : Nat), (f.read_eeprom_req addr).index = addr) ∧
    (∀ (f : Ftdi) (addr w : Nat), (f.write_eeprom_req addr w).index = addr) :=
  ⟨fun _ _ _ _ _ => rfl, fun _ _ _ _ _ => rfl, fun _ => rfl, fun _ _ => rfl,
   fun _ _ _ => rfl⟩

/-- Claim C3 (counterexample): a transport that transfers 1 byte instead of the
2 requested makes read_eeprom_word panic (assert_eq), not return an Other
error. -/
theorem C3_counterexample :
    (Ftdi.read_eeprom_word shortReadTransport someFtdi 0 ()).1 = Outcome.panicked := rfl

/-- Claim C3 (amended): port-scope reads and writes (read_control and
write_control, and read_pins, poll_modem_status and read_latency_timer built
on them) return an Other error when the transport reports a byte count
different from the requested length; the device-scope EEPROM operations
instead panic on the mismatch.  Neither path truncates silently. -/
theorem C3_short_transfer :
    (∀ (σ : Type) (t : Transport σ) (s s1 : σ) (M : BitMode) (p : Port M)
        (r : ControlReq) (v len : Nat) (bytes : List Nat),
      t.readControl s (p.read_control_req r v len) = (.ok bytes, s1) →
      bytes.length ≠ len →
      (Port.read_control t p r v len s).1 = .err ErrorKind.Other) ∧
    (∀ (σ : Type) (t : Transport σ) (s s1 : σ) (M : BitMode) (p : Port M)
        (r : ControlReq) (v : Nat) (d : List Nat) (n : Nat),
      t.writeControl s (p.write_control_req r v d) = (.ok n, s1) →
      n ≠ d.length →
      (Port.write_control t p r v d s).1 = .err ErrorKind.Other) ∧
    (∀ (σ : Type) (t : Transport σ) (s s1 : σ) (M : BitMode) (p : Port M)
        (bytes : List Nat),
      t.readControl s (p.read_control_req ControlReq.ReadPins 0 1) = (.ok bytes, s1) →
      bytes.length ≠ 1 →
      (Port.read_pins t p s).1 = .err ErrorKind.Other) ∧
    (∀ (σ : Type) (t : Transport σ) (s s1 : σ) (p : Port BitMode.Serial)
        (bytes : List Nat),
      t.readControl s (p.read_control_req ControlReq.PollModemStatus 0 2) = (.ok bytes, s1) →
      bytes.length ≠ 2 →
      (Port.poll_modem_status t p s).1 = .err ErrorKind.Other) ∧
    (∀ (σ : Type) (t : Transport σ) (s s1 : σ) (p : Port BitMode.Serial)
        (bytes : List Nat),
      t.readControl s (p.read_control_req ControlReq.GetLatencyTimer 0 1) = (.ok bytes, s1) →
      bytes.length ≠ 1 →
      (Port.read_latency_timer t p s).1 = .err ErrorKind.Other) ∧
    (∀ (σ : Type) (t : Transport σ) (s s1 : σ) (f : Ftdi) (word_addr : Nat)
        (bytes : List Nat),
      t.readControl s (f.read_eeprom_req word_addr) = (.ok bytes, s1) →
      bytes.length ≠ 2 →
      (Ftdi.read_eeprom_word t f word_addr s).1 = Outcome.panicked) ∧
    (∀ (σ : Type) (t : Transport σ) (s s1 : σ) (f : Ftdi) (word_addr word n : Nat),
      t.writeControl s (f.write_eeprom_req word_addr word) = (.ok n, s1) →
      n ≠ 0 →
      (Ftdi.write_eeprom_word t f word_addr word s).1 = Outcome.panicked) ∧
    (∀ (σ : Type) (t : Transport σ) (s s1 : σ) (f : Ftdi) (timeout n : Nat),
      t.writeControl s (Ftdi.erase_eeprom_req timeout) = (.ok n, s1) →
      n ≠ 0 →
      (Ftdi.erase_eeprom t f timeout s).1 = Outcome.panicked) := by
  refine ⟨?_, ?_, ?_, ?_, ?_, ?_, ?_, ?_⟩
  · intro σ t s s1 M p r v len bytes h hn
    rw [read_control_short t p r v len s bytes s1 h hn]
  · intro σ t s s1 M p r v d n h hn
    rw [write_control_short t p r v d s n s1 h hn]
  · intro σ t s s1 M p bytes h hn
    exact read_pins_short t p s bytes s1 h hn
  · intro σ t s s1 p bytes h hn
    exact poll_modem_status_short t p s bytes s1 h hn
  · intro σ t s s1 p bytes h hn
    exact read_latency_timer_short t p s bytes s1 h hn
  · intro σ t s s1 f word_addr bytes h hn
    exact read_eeprom_short t f word_addr s bytes s1 h hn
  · intro σ t s s1 f word_addr word n h hn
    exact write_eeprom_short t f word_addr word s n s1 h hn
  · intro σ t s s1 f timeout n h hn
    exact erase_eeprom_short t f timeout s n s1 h hn

/-- Claim C3 (witness): a short 2-byte port read yields Other on a concrete
transport and port; a concrete over-reporting transport makes write_eeprom_word
panic. -/
theorem C3_witness :
    (Port.read_control shortReadTransport somePort ControlReq.PollModemStatus 0 2 ()).1 =
      .err ErrorKind.Other ∧
    (Ftdi.write_eeprom_word overReportTransport someFtdi 0 7 ()).1 = Outcome.panicked :=
  ⟨C3_short_transfer.1 Unit shortReadTransport () () BitMode.Serial somePort
      ControlReq.PollModemStatus 0 2 [0] rfl (by decide),
   C3_short_transfer.2.2.2.2.2.2.1 Unit overReportTransport () () someFtdi 0 7 1 rfl
      (by decide)⟩

/-- Claim C4: the property lookup agrees with the section 4.1 table row by row
(hence Some exactly at majors 2,4,5,6,7,8,9,10 with bit-exact properties, and
None at 0,1,3), returns nothing above 10, and whenever it returns nothing
Ftdi::open yields UnsupportedDevice. -/
theorem C4_property_table :
    (∀ m : Nat, lookupProps m = specRow m) ∧
    (∀ m : Nat, (lookupProps m).isSome = true ↔
      m = 2 ∨ m = 4 ∨ m = 5 ∨ m = 6 ∨ m = 7 ∨ m = 8 ∨ m = 9 ∨ m = 10) ∧
    (∀ m : Nat, 10 < m → lookupProps m = none) ∧
    (∀ (dev : UsbDevice) (b : Bool), lookupProps dev.descr.version_major = none →
      Ftdi.openDevice dev b = .error ErrorKind.UnsupportedDevice) :=
  ⟨lookup_eq_specRow, lookup_isSome_iff, lookupProps_large,
   openDevice_unsupported_of_lookup_none⟩

/-- Claim C4 (witness): lookup at 42 returns nothing, and open on a concrete
major-3 device fails with UnsupportedDevice. -/
theorem C4_witness :
    lookupProps 42 = none ∧
    Ftdi.openDevice badMajorDevice true = .error ErrorKind.UnsupportedDevice :=
  ⟨C4_property_table.2.2.1 42 (by decide),
   C4_property_table.2.2.2 badMajorDevice true rfl⟩

/-- Claim C5: with no matching device the singular open fails NoDeviceFound
after scanning the whole list; with exactly one match that device is opened;
with a second match the scan aborts at the second match with
MultipleDevicesFound, never examining the devices after it. -/
theorem C5_singular_open :
    (∀ (f : UsbDevice → Bool) (devs : List UsbDevice) (oo : Bool),
      (∀ d ∈ devs, f d = false) →
      Ftdi.scanDevices f devs none = (.error ErrorKind.NoDeviceFound, devs.length) ∧
      Ftdi.open_filtered f devs oo = .error ErrorKind.NoDeviceFound) ∧
    (∀ (f : UsbDevice → Bool) (as : List UsbDevice) (d : UsbDevice)
        (bs : List UsbDevice) (oo : Bool),
      (∀ a ∈ as, f a = false) → f d = true → (∀ a ∈ bs, f a = false) →
      (Ftdi.scanDevices f (as ++ d :: bs) none).1 = .ok d ∧
      Ftdi.open_filtered f (as ++ d :: bs) oo = Ftdi.openDevice d oo) ∧
    (∀ (f : UsbDevice → Bool) (as : List UsbDevice) (d1 : UsbDevice)
        (cs : List UsbDevice) (d2 : UsbDevice) (zs : List UsbDevice) (oo : Bool),
      (∀ a ∈ as, f a = false) → f d1 = true → (∀ a ∈ cs, f a = false) → f d2 = true →
      Ftdi.scanDevices f (as ++ d1 :: (cs ++ d2 :: zs)) none =
        (.error ErrorKind.MultipleDevicesFound, as.length + cs.length + 2) ∧
      Ftdi.open_filtered f (as ++ d1 :: (cs ++ d2 :: zs)) oo =
        .error ErrorKind.MultipleDevicesFound) := by
  refine ⟨?_, ?_, ?_⟩
  · intro f devs oo h
    have hs := scan_all_unmatched f devs none h
    refine ⟨hs, ?_⟩
    unfold Ftdi.open_filtered
    rw [hs]
  · intro f as d bs oo h1 hd h2
    have hs := scan_one_match f as d bs h1 hd h2
    refine ⟨by rw [hs], ?_⟩
    unfold Ftdi.open_filtered
    rw [hs]
  · intro f as d1 cs d2 zs oo h1 hd1 h2 hd2
    have hs := scan_two_matches f as d1 cs d2 zs h1 hd1 h2 hd2
    refine ⟨hs, ?_⟩
    unfold Ftdi.open_filtered
    rw [hs]

/-- Claim C5 (witness): on a concrete three-device list with two revision-6
matches, the scan stops after examining two devices and fails with
MultipleDevicesFound; the third device is never examined. -/
theorem C5_witness :
    Ftdi.scanDevices majorSixFilter [goodDevice, goodDevice, badMajorDevice] none =
      (.error ErrorKind.MultipleDevicesFound, 2) ∧
    Ftdi.open_filtered majorSixFilter [goodDevice, goodDevice, badMajorDevice] true =
      .error ErrorKind.MultipleDevicesFound := by
  have h := C5_singular_open.2.2 majorSixFilter [] goodDevice [] goodDevice
    [badMajorDevice] true (by simp) rfl (by simp) rfl
  simpa using h

/-- Claim C6: into_mode issues exactly one SetBitmode control write (no
interface release or claim happens during the transition), and on success the
returned port keeps the interface index, timeout, endpoints and properties of
the consumed port. -/
theorem C6_into_mode_preserves :
    ∀ (σ : Type) (t : Transport σ) (s : σ) (M T : BitMode) (p : Port M),
      (Port.into_mode T t p s).2.2 =
        [UsbAction.controlWrite
          (p.write_control_req ControlReq.SetBitmode ((T.code <<< 8) ||| 0x00) [])] ∧
      (∀ a ∈ (Port.into_mode T t p s).2.2, a.isClaim = false ∧ a.isRelease = false) ∧
      (∀ q : Port T, (Port.into_mode T t p s).1 = .ok q →
        q.index = p.index ∧ q.timeout = p.timeout ∧ q.properties = p.properties ∧
        q.ep_in = p.ep_in ∧ q.ep_out = p.ep_out) := by
  intro σ t s M T p
  refine ⟨into_mode_trace T t p s, ?_, fun q h => into_mode_fields T t p s q h⟩
  intro a ha
  rw [into_mode_trace T t p s] at ha
  simp only [List.mem_singleton] at ha
  subst ha
  exact ⟨rfl, rfl⟩

/-- Claim C6 (witness): switching the concrete Serial port into Mpsse succeeds
on a well-behaved transport and preserves index, timeout, endpoints and
properties. -/
theorem C6_witness :
    (Port.into_mode BitMode.Mpsse okTransport somePort ()).1 = Outcome.ok mpssePort ∧
    mpssePort.index = somePort.index ∧ mpssePort.timeout = somePort.timeout ∧
    mpssePort.properties = somePort.properties ∧ mpssePort.ep_in = somePort.ep_in ∧
    mpssePort.ep_out = somePort.ep_out :=
  ⟨rfl, (C6_into_mode_preserves Unit okTransport () BitMode.Serial BitMode.Mpsse
      somePort).2.2 mpssePort rfl⟩

/-- Claim C7: on the word-array fake transport honouring the wire protocol,
writing word W at an in-bounds address A and then reading address A returns W;
and read_eeprom_word decodes its 2-byte payload as a little-endian 16-bit
word. -/
theorem C7_eeprom_roundtrip :
    (∀ (mem : List Nat) (A W : Nat) (f : Ftdi), A < mem.length → W < 65536 →
      (Ftdi.write_eeprom_word eepromTransport f A W mem).1 = Outcome.ok () ∧
      (Ftdi.read_eeprom_word eepromTransport f A
        (Ftdi.write_eeprom_word eepromTransport f A W mem).2).1 = Outcome.ok W) ∧
    (∀ (b0 b1 : Nat) (f : Ftdi) (addr : Nat),
      (Ftdi.read_eeprom_word (fixedReadTransport [b0, b1]) f addr ()).1 =
        Outcome.ok (b0 + 256 * b1)) :=
  ⟨eeprom_roundtrip, le16_decode⟩

/-- Claim C7 (witness): writing 0xBEEF at word address 1 of a 3-word array and
reading it back returns 0xBEEF. -/
theorem C7_witness :
    (Ftdi.write_eeprom_word eepromTransport someFtdi 1 48879 [0, 0, 0]).1 =
      Outcome.ok () ∧
    (Ftdi.read_eeprom_word eepromTransport someFtdi 1
      (Ftdi.write_eeprom_word eepromTransport someFtdi 1 48879 [0, 0, 0]).2).1 =
      Outcome.ok 48879 :=
  C7_eeprom_roundtrip.1 [0, 0, 0] 1 48879 someFtdi (by decide) (by decide)

/-- Claim C8: set_serial_config issues a SetData control write whose value is
(parity_code shifted left 8) or (stop_code shifted left 11) or (break bit
shifted left 14); at (Even, Stop2, break) the value is 0x5200. -/
theorem C8_serial_config_encoding :
    (∀ (σ : Type) (t : Transport σ) (s : σ) (p : Port BitMode.Serial)
        (parity : Parity) (stop : StopBits) (br : Bool),
      (Port.set_serial_config t p parity stop br s).2.2 =
        [UsbAction.controlWrite (p.write_control_req ControlReq.SetData
          ((parity.code <<< 8) ||| (stop.code <<< 11) |||
            ((if br then 1 else 0) <<< 14)) [])]) ∧
    ((Parity.Even.code <<< 8) ||| (StopBits.Stop2.code <<< 11) ||| (1 <<< 14) = 0x5200) ∧
    (∀ (σ : Type) (t : Transport σ) (s : σ) (p : Port BitMode.Serial),
      (Port.set_serial_config t p Parity.Even StopBits.Stop2 true s).2.2 =
        [UsbAction.controlWrite (p.write_control_req ControlReq.SetData 0x5200 [])]) := by
  refine ⟨?_, by decide, ?_⟩
  · intro σ t s p parity stop br
    exact write_control_trace t p ControlReq.SetData _ [] s
  · intro σ t s p
    exact write_control_trace t p ControlReq.SetData 0x5200 [] s

/-- Claim C9: calling open_port with an index at or above num_ports panics (it
never returns a recoverable error value); with an in-range index the panic
guard cannot fire; and num_ports of every successfully opened handle equals
the port count of its matched properties. -/
theorem C9_open_port_guard :
    (∀ (σ : Type) (t : Transport σ) (f : Ftdi) (port ep_in ep_out : Nat) (s : σ),
      f.num_ports ≤ port →
      (Ftdi.open_port t f port ep_in ep_out s).1 = Outcome.panicked) ∧
    (∀ (σ : Type) (t : Transport σ) (f : Ftdi) (port ep_in ep_out : Nat) (s : σ),
      port < f.num_ports →
      (Ftdi.open_port t f port ep_in ep_out s).1 ≠ Outcome.panicked) ∧
    (∀ (dev : UsbDevice) (b : Bool) (f : Ftdi), Ftdi.openDevice dev b = .ok f →
      f.num_ports = f.properties.ports.length) :=
  ⟨fun _ t f port ei eo s h => open_port_guard_panicked t f port ei eo s h,
   fun _ t f port ei eo s h => open_port_in_range_ne_panicked t f port ei eo s h,
   numPorts_of_open⟩

/-- Claim C9 (witness): on the concrete one-port FT232R handle, opening port 5
panics, opening port 0 does not, and num_ports equals the table port count. -/
theorem C9_witness :
    (Ftdi.open_port okTransport someFtdi 5 129 2 ()).1 = Outcome.panicked ∧
    (Ftdi.open_port okTransport someFtdi 0 129 2 ()).1 ≠ Outcome.panicked ∧
    someFtdi.num_ports = someFtdi.properties.ports.length :=
  ⟨C9_open_port_guard.1 Unit okTransport someFtdi 5 129 2 () (by decide),
   C9_open_port_guard.2.1 Unit okTransport someFtdi 0 129 2 () (by decide),
   C9_open_port_guard.2.2 goodDevice true someFtdi rfl⟩

/-- Claim C10: every Some entry of the static property table has between 1 and
4 ports, so every successfully opened handle has num_ports at least 1 and
open_port 0 always satisfies the index precondition (its panic guard cannot
fire). -/
theorem C10_ports_nonempty :
    (∀ o ∈ DEVICES, ∀ p : DeviceProps, o = some p →
      1 ≤ p.ports.length ∧ p.ports.length ≤ 4) ∧
    (∀ (dev : UsbDevice) (b : Bool) (f : Ftdi), Ftdi.openDevice dev b = .ok f →
      1 ≤ f.num_ports ∧
      ∀ (σ : Type) (t : Transport σ) (ep_in ep_out : Nat) (s : σ),
        (Ftdi.open_port t f 0 ep_in ep_out s).1 ≠ Outcome.panicked) := by
  refine ⟨DEVICES_ports_bound, ?_⟩
  intro dev b f h
  have h1 := (openDevice_ok dev b f h).1
  have hb := lookupProps_ports_bound dev.descr.version_major f.properties h1
  have hn : 1 ≤ f.num_ports := by
    unfold Ftdi.num_ports
    omega
  exact ⟨hn, fun σ t ei eo s => open_port_in_range_ne_panicked t f 0 ei eo s (by omega)⟩

/-- Claim C10 (witness): the FT232AM table entry has one port; the concrete
opened FT232R handle has num_ports 1 and open_port 0 does not panic. -/
theorem C10_witness :
    (1 ≤ ft232am.ports.length ∧ ft232am.ports.length ≤ 4) ∧
    1 ≤ someFtdi.num_ports ∧
    (Ftdi.open_port okTransport someFtdi 0 129 2 ()).1 ≠ Outcome.panicked :=
  ⟨C10_ports_nonempty.1 (some ft232am) (by decide) ft232am rfl,
   (C10_ports_nonempty.2 goodDevice true someFtdi rfl).1,
   (C10_ports_nonempty.2 goodDevice true someFtdi rfl).2 Unit okTransport 129 2 ()⟩

end Rftdi
